import Mathlib

/-!
Verification development for the campusSafeGuard server.

The definitions below are a shallow embedding of the Express route handlers
in the server routing module and of the drizzle storage layer.  Database
tables are lists of records, timestamps are naturals, and each HTTP handler
becomes a pure function from the stored state and the request data to a
response (and, for mutating handlers, the new stored state).
-/

namespace CampusSafeGuard

/-- Role enum of the users table: student, staff or admin. -/
inductive Role where
  | student
  | staff
  | admin
deriving DecidableEq, Repr

/-- Department enum: medical, security, guidance or none. -/
inductive Department where
  | medical
  | security
  | guidance
  | none
deriving DecidableEq, Repr

/-- Alert status enum: pending, acknowledged, dispatched, resolved. -/
inductive AlertStatus where
  | pending
  | acknowledged
  | dispatched
  | resolved
deriving DecidableEq, Repr

/-- A row of the users table. -/
structure User where
  id : String
  email : String
  password : String
  role : Role
  department : Department
  fullName : Option String
  phoneNumber : Option String
  isActive : Bool
  createdAt : Nat
  lastLogin : Option Nat
deriving DecidableEq, Repr

/-- A row of the alerts table. -/
structure Alert where
  id : String
  userId : String
  department : Department
  status : AlertStatus
  latitude : Option String
  longitude : Option String
  locationName : Option String
  locationAccuracy : Option String
  situationData : Option (List (String × String))
  responseNotes : Option String
  acknowledgedAt : Option Nat
  dispatchedAt : Option Nat
  resolvedAt : Option Nat
  acknowledgedBy : Option String
  createdAt : Nat
deriving DecidableEq, Repr

/-- Body accepted by updateAlertStatusSchema: a status plus optional notes. -/
structure UpdateAlertStatus where
  status : AlertStatus
  responseNotes : Option String
deriving DecidableEq, Repr

/-- storage.getUser: first users row with the given id. -/
def findUser : List User → String → Option User
  | [], _ => Option.none
  | u :: rest, uid => if u.id = uid then Option.some u else findUser rest uid

/-- storage.getUserByEmail: first users row with the given email. -/
def findUserByEmail : List User → String → Option User
  | [], _ => Option.none
  | u :: rest, email =>
    if u.email = email then Option.some u else findUserByEmail rest email

/-- storage.getAlert: first alerts row with the given id. -/
def findAlert : List Alert → String → Option Alert
  | [], _ => Option.none
  | a :: rest, aid => if a.id = aid then Option.some a else findAlert rest aid

/-- Result of the requireRole middleware. -/
inductive AuthCheck where
  | unauthorized
  | forbidden
  | ok (u : User)
deriving DecidableEq, Repr

/-- The requireRole middleware: 401 without a session, 403 when the session
user is missing or its role is outside the allowed set, otherwise the
resolved user record is attached to the request. -/
def requireRole (roles : List Role) (sessionUserId : Option String)
    (usersDb : List User) : AuthCheck :=
  match sessionUserId with
  | Option.none => AuthCheck.unauthorized
  | Option.some uid =>
    match findUser usersDb uid with
    | Option.none => AuthCheck.forbidden
    | Option.some u =>
      if u.role ∈ roles then AuthCheck.ok u else AuthCheck.forbidden

/-- The validTransitions record of the PATCH alerts handler.  A lookup on a
status that is not a key of the record yields none (undefined in the code);
resolved has no entry. -/
def validTransitions : AlertStatus → Option (List AlertStatus)
  | AlertStatus.pending => Option.some [AlertStatus.acknowledged, AlertStatus.dispatched]
  | AlertStatus.acknowledged => Option.some [AlertStatus.dispatched]
  | AlertStatus.dispatched => Option.some [AlertStatus.resolved]
  | AlertStatus.resolved => Option.none

/-- The guard of the PATCH alerts handler, mirroring the short-circuit
conjunction: the request is rejected only when the current status is not
pending, the record has an entry for it, and the target is not listed. -/
def transitionRejected (cur target : AlertStatus) : Bool :=
  if cur = AlertStatus.pending then false
  else
    match validTransitions cur with
    | Option.some allowed => !(decide (target ∈ allowed))
    | Option.none => false

/-- The transition table exactly as the spec states it:
pending to acknowledged or dispatched, acknowledged to dispatched,
dispatched to resolved, and nothing out of resolved. -/
def specAllowsTransition : AlertStatus → AlertStatus → Bool
  | AlertStatus.pending, AlertStatus.acknowledged => true
  | AlertStatus.pending, AlertStatus.dispatched => true
  | AlertStatus.acknowledged, AlertStatus.dispatched => true
  | AlertStatus.dispatched, AlertStatus.resolved => true
  | _, _ => false

/-- The updateData object built by the PATCH alerts handler applied to a
row: sets the status, copies responseNotes when truthy (present and
non-empty), and stamps the timestamp (and actor, for acknowledgement)
matching the new status. -/
def applyStatusUpdate (a : Alert) (data : UpdateAlertStatus) (actorId : String)
    (now : Nat) : Alert :=
  let a1 := { a with status := data.status }
  let a2 :=
    match data.responseNotes with
    | Option.some notes =>
      if notes = "" then a1 else { a1 with responseNotes := Option.some notes }
    | Option.none => a1
  if data.status = AlertStatus.acknowledged then
    { a2 with acknowledgedAt := Option.some now, acknowledgedBy := Option.some actorId }
  else if data.status = AlertStatus.dispatched then
    { a2 with dispatchedAt := Option.some now }
  else if data.status = AlertStatus.resolved then
    { a2 with resolvedAt := Option.some now }
  else a2

/-- storage.updateAlert: set the given update on every alerts row whose id
matches (ids are the primary key, so at most one row matches). -/
def updateAlertDb (alertsDb : List Alert) (aid : String) (f : Alert → Alert) :
    List Alert :=
  alertsDb.map (fun a => if a.id = aid then f a else a)

/-- Responses of the PATCH alerts endpoint. -/
inductive PatchResp where
  | unauthorized
  | forbidden
  | notFound
  | invalidTransition (cur target : AlertStatus)
  | ok (a : Alert)
deriving DecidableEq, Repr

/-- Body of the PATCH alerts handler, after requireRole has resolved the
acting user: 404 when the alert is absent, 403 for staff outside the
alert department, 400 when the transition guard rejects, otherwise the
updated row is persisted and returned. -/
def patchAlertHandler (alertsDb : List Alert) (user : User) (aid : String)
    (data : UpdateAlertStatus) (now : Nat) : PatchResp × List Alert :=
  match findAlert alertsDb aid with
  | Option.none => (PatchResp.notFound, alertsDb)
  | Option.some alert =>
    if user.role = Role.staff ∧ user.department ≠ alert.department then
      (PatchResp.forbidden, alertsDb)
    else if transitionRejected alert.status data.status then
      (PatchResp.invalidTransition alert.status data.status, alertsDb)
    else
      (PatchResp.ok (applyStatusUpdate alert data user.id now),
       updateAlertDb alertsDb aid (fun a => applyStatusUpdate a data user.id now))

/-- The PATCH alerts endpoint: requireRole for staff or admin, then the
handler body. -/
def patchAlertRoute (usersDb : List User) (alertsDb : List Alert)
    (sessionUserId : Option String) (aid : String) (data : UpdateAlertStatus)
    (now : Nat) : PatchResp × List Alert :=
  match requireRole [Role.staff, Role.admin] sessionUserId usersDb with
  | AuthCheck.unauthorized => (PatchResp.unauthorized, alertsDb)
  | AuthCheck.forbidden => (PatchResp.forbidden, alertsDb)
  | AuthCheck.ok user => patchAlertHandler alertsDb user aid data now

/-- Responses of the GET department alerts endpoint. -/
inductive DeptAlertsResp where
  | unauthorized
  | forbidden
  | ok (l : List Alert)
deriving DecidableEq, Repr

/-- storage.getAlertsByDepartment: the alerts of one department ordered by
createdAt descending (newest first). -/
def getAlertsByDepartment (alertsDb : List Alert) (dept : Department) : List Alert :=
  (alertsDb.filter (fun a => a.department = dept)).insertionSort
    (fun a b => b.createdAt ≤ a.createdAt)

/-- The GET department alerts endpoint: requireRole for staff or admin,
403 for staff outside the requested department, otherwise the department
listing. -/
def getDeptAlertsRoute (usersDb : List User) (alertsDb : List Alert)
    (sessionUserId : Option String) (dept : Department) : DeptAlertsResp :=
  match requireRole [Role.staff, Role.admin] sessionUserId usersDb with
  | AuthCheck.unauthorized => DeptAlertsResp.unauthorized
  | AuthCheck.forbidden => DeptAlertsResp.forbidden
  | AuthCheck.ok user =>
    if user.role = Role.staff ∧ user.department ≠ dept then DeptAlertsResp.forbidden
    else DeptAlertsResp.ok (getAlertsByDepartment alertsDb dept)

/-- Payload accepted by insertAlertSchema: the alerts columns minus id,
createdAt and the four response-side fields.  The status column keeps its
place in the payload (the schema does not omit it); since the column has a
database default the field is optional. -/
structure InsertAlertPayload where
  userId : String
  department : Department
  status : Option AlertStatus
  latitude : Option String
  longitude : Option String
  locationName : Option String
  locationAccuracy : Option String
  situationData : Option (List (String × String))
  responseNotes : Option String
deriving DecidableEq, Repr

/-- storage.createAlert: insert the payload as a new alerts row; columns
absent from the payload take their database defaults (status defaults to
pending, the response-side fields to null). -/
def createAlertRow (payload : InsertAlertPayload) (newId : String) (now : Nat) :
    Alert :=
  { id := newId
    userId := payload.userId
    department := payload.department
    status := payload.status.getD AlertStatus.pending
    latitude := payload.latitude
    longitude := payload.longitude
    locationName := payload.locationName
    locationAccuracy := payload.locationAccuracy
    situationData := payload.situationData
    responseNotes := payload.responseNotes
    acknowledgedAt := Option.none
    dispatchedAt := Option.none
    resolvedAt := Option.none
    acknowledgedBy := Option.none
    createdAt := now }

/-- The POST alerts handler after requireAuth: the parsed payload is spread
and its userId replaced by the session user id, then persisted and the
created row returned. -/
def postAlertRoute (sessionUserId : String) (payload : InsertAlertPayload)
    (newId : String) (now : Nat) : Alert :=
  createAlertRow { payload with userId := sessionUserId } newId now

/-- A row of the audit_logs table (details is the jsonb payload, modelled
as a key-value list). -/
structure AuditLog where
  id : String
  userId : String
  action : String
  targetType : Option String
  targetId : Option String
  details : List (String × String)
  createdAt : Nat
deriving DecidableEq, Repr

/-- The stored state touched by the admin user-deletion endpoint. -/
structure AdminState where
  users : List User
  auditLogs : List AuditLog
deriving DecidableEq, Repr

/-- Responses of the DELETE admin users endpoint. -/
inductive DeleteResp where
  | unauthorized
  | forbidden
  | badRequest
  | notFound
  | ok
deriving DecidableEq, Repr

/-- Body of the DELETE admin users handler: 400 when the target id equals
the session user id, 404 when the target is absent, otherwise the user row
is deleted and an audit-log entry appended. -/
def deleteUserHandler (st : AdminState) (sessionUid targetId logId : String)
    (now : Nat) : DeleteResp × AdminState :=
  if targetId = sessionUid then (DeleteResp.badRequest, st)
  else
    match findUser st.users targetId with
    | Option.none => (DeleteResp.notFound, st)
    | Option.some u =>
      let log : AuditLog :=
        { id := logId
          userId := sessionUid
          action := "delete_user"
          targetType := Option.some "user"
          targetId := Option.some targetId
          details := [("email", u.email)]
          createdAt := now }
      (DeleteResp.ok,
       { users := st.users.filter (fun x => x.id ≠ targetId)
         auditLogs := st.auditLogs ++ [log] })

/-- The DELETE admin users endpoint: requireRole for admin, then the
handler body with the session user id. -/
def deleteUserRoute (st : AdminState) (sessionUserId : Option String)
    (targetId logId : String) (now : Nat) : DeleteResp × AdminState :=
  match sessionUserId with
  | Option.none => (DeleteResp.unauthorized, st)
  | Option.some uid =>
    match requireRole [Role.admin] (Option.some uid) st.users with
    | AuthCheck.unauthorized => (DeleteResp.unauthorized, st)
    | AuthCheck.forbidden => (DeleteResp.forbidden, st)
    | AuthCheck.ok _ => deleteUserHandler st uid targetId logId now

/-- Sender role enum of the messages table. -/
inductive SenderRole where
  | student
  | staff
deriving DecidableEq, Repr

/-- Chat session status enum. -/
inductive ChatStatus where
  | active
  | inactive
  | closed
deriving DecidableEq, Repr

/-- A row of the chat_sessions table. -/
structure ChatSession where
  id : String
  userId : String
  department : Department
  anonymousId : String
  status : ChatStatus
  lastMessageAt : Option Nat
  createdAt : Nat
  closedAt : Option Nat
deriving DecidableEq, Repr

/-- A row of the messages table. -/
structure Message where
  id : String
  sessionId : String
  senderId : String
  senderRole : SenderRole
  content : String
  fileUrl : Option String
  fileName : Option String
  isRead : Bool
  createdAt : Nat
deriving DecidableEq, Repr

/-- storage.getChatSession: first chat_sessions row with the given id. -/
def findChatSession : List ChatSession → String → Option ChatSession
  | [], _ => Option.none
  | c :: rest, sid => if c.id = sid then Option.some c else findChatSession rest sid

/-- storage.getMessagesBySession: the messages of one session ordered by
createdAt ascending. -/
def getMessagesBySession (msgsDb : List Message) (sid : String) : List Message :=
  (msgsDb.filter (fun m => m.sessionId = sid)).insertionSort
    (fun a b => a.createdAt ≤ b.createdAt)

/-- The shared access check of the chat message endpoints: the owning
student, staff of the session department, or an admin. -/
def canAccessSession (sess : ChatSession) (uid : String) (u : User) : Bool :=
  decide (sess.userId = uid) ||
    (decide (u.role = Role.staff) && decide (u.department = sess.department)) ||
    decide (u.role = Role.admin)

/-- Responses of the GET chat messages endpoint. -/
inductive MessagesResp where
  | unauthorized
  | forbidden
  | notFound
  | ok (l : List Message)
deriving DecidableEq, Repr

/-- The GET chat messages endpoint: requireAuth, 404 when the session is
absent, 401 when the session user is missing, 403 when the access check
fails, otherwise the ordered message listing. -/
def getMessagesRoute (usersDb : List User) (sessionsDb : List ChatSession)
    (msgsDb : List Message) (sessionUserId : Option String) (sid : String) :
    MessagesResp :=
  match sessionUserId with
  | Option.none => MessagesResp.unauthorized
  | Option.some uid =>
    match findChatSession sessionsDb sid with
    | Option.none => MessagesResp.notFound
    | Option.some sess =>
      match findUser usersDb uid with
      | Option.none => MessagesResp.unauthorized
      | Option.some u =>
        if canAccessSession sess uid u then
          MessagesResp.ok (getMessagesBySession msgsDb sid)
        else MessagesResp.forbidden

/-- WebSocket ready states. -/
inductive ReadyState where
  | CONNECTING
  | OPEN
  | CLOSING
  | CLOSED
deriving DecidableEq, Repr

/-- A WebSocket connection of the fan-out registry, identified by a
numeric handle. -/
structure Conn where
  connId : Nat
  readyState : ReadyState
deriving DecidableEq, Repr

/-- The clients map of registerRoutes: user id to the set of that user
connections, modelled as an association list whose keys stay distinct. -/
abbrev Registry : Type := List (String × List Conn)

/-- clients.get / clients.has: the value stored under a key. -/
def regGet : Registry → String → Option (List Conn)
  | [], _ => Option.none
  | (k, v) :: rest, uid => if k = uid then Option.some v else regGet rest uid

/-- clients.set: replace the entry under a key, appending a new entry when
the key is absent. -/
def regSet : Registry → String → List Conn → Registry
  | [], uid, l => [(uid, l)]
  | (k, v) :: rest, uid, l =>
    if k = uid then (uid, l) :: rest else (k, v) :: regSet rest uid l

/-- clients.delete: drop the entry under a key. -/
def regDelete : Registry → String → Registry
  | [], _ => []
  | (k, v) :: rest, uid => if k = uid then rest else (k, v) :: regDelete rest uid

/-- The upgrade handler registration: create an empty set for a fresh user
then add the socket to the user set (Set.add is a no-op on a member). -/
def registerConn (reg : Registry) (uid : String) (c : Conn) : Registry :=
  match regGet reg uid with
  | Option.none => regSet reg uid [c]
  | Option.some l => regSet reg uid (if c ∈ l then l else l ++ [c])

/-- The socket close handler: remove the socket from the user set and drop
the user entry entirely when the set becomes empty. -/
def unregisterConn (reg : Registry) (uid : String) (c : Conn) : Registry :=
  match regGet reg uid with
  | Option.none => reg
  | Option.some l =>
    let l2 := l.filter (fun x => x ≠ c)
    if l2.isEmpty then regDelete reg uid else regSet reg uid l2

/-- broadcastToUser: send the serialized message on every connection of the
user that is in the OPEN ready state; an absent user sends nothing.  The
result lists the (connection, payload) sends performed. -/
def broadcastToUser (reg : Registry) (uid : String) (msg : String) :
    List (Nat × String) :=
  match regGet reg uid with
  | Option.none => []
  | Option.some l =>
    (l.filter (fun c => c.readyState = ReadyState.OPEN)).map
      (fun c => (c.connId, msg))

/-- The user minus its password column, the shape of every user sent in a
response body. -/
structure PublicUser where
  id : String
  email : String
  role : Role
  department : Department
  fullName : Option String
  phoneNumber : Option String
  isActive : Bool
  createdAt : Nat
  lastLogin : Option Nat
deriving DecidableEq, Repr

/-- The destructuring that drops the password field before responding. -/
def stripPassword (u : User) : PublicUser :=
  { id := u.id
    email := u.email
    role := u.role
    department := u.department
    fullName := u.fullName
    phoneNumber := u.phoneNumber
    isActive := u.isActive
    createdAt := u.createdAt
    lastLogin := u.lastLogin }

/-- Responses of the login endpoint. -/
inductive LoginResp where
  | invalidCredentials
  | inactive
  | ok (u : PublicUser)
deriving DecidableEq, Repr

/-- The POST login handler: look the user up by email, compare the password
against the stored hash (bcrypt.compare is the check parameter), reject
inactive accounts, and respond with the user record minus its password. -/
def loginRoute (usersDb : List User) (email pw : String)
    (check : String → String → Bool) : LoginResp :=
  match findUserByEmail usersDb email with
  | Option.none => LoginResp.invalidCredentials
  | Option.some u =>
    if !(check pw u.password) then LoginResp.invalidCredentials
    else if !u.isActive then LoginResp.inactive
    else LoginResp.ok (stripPassword u)

/-- Payload accepted by registerSchema. -/
structure RegisterPayload where
  email : String
  password : String
  fullName : String
  phoneNumber : Option String
deriving DecidableEq, Repr

/-- Responses of the registration endpoint. -/
inductive RegisterResp where
  | emailTaken
  | ok (u : PublicUser)
deriving DecidableEq, Repr

/-- The POST register handler: reject a duplicate email, create a student
account whose password column holds the bcrypt hash of the submitted
password, and respond with the created record minus its password (the
response is read before the last-login update, so lastLogin is null). -/
def registerRoute (usersDb : List User) (data : RegisterPayload)
    (hash : String → String) (newId : String) (now : Nat) : RegisterResp :=
  match findUserByEmail usersDb data.email with
  | Option.some _ => RegisterResp.emailTaken
  | Option.none =>
    let u : User :=
      { id := newId
        email := data.email
        password := hash data.password
        role := Role.student
        department := Department.none
        fullName := Option.some data.fullName
        phoneNumber := data.phoneNumber
        isActive := true
        createdAt := now
        lastLogin := Option.none }
    RegisterResp.ok (stripPassword u)

/-- Responses of the current-user endpoint. -/
inductive MeResp where
  | unauthorized
  | ok (u : PublicUser)
deriving DecidableEq, Repr

/-- The GET current-user handler: 401 without a session or when the session
user no longer exists, otherwise the user record minus its password. -/
def meRoute (usersDb : List User) (sessionUserId : Option String) : MeResp :=
  match sessionUserId with
  | Option.none => MeResp.unauthorized
  | Option.some uid =>
    match findUser usersDb uid with
    | Option.none => MeResp.unauthorized
    | Option.some u => MeResp.ok (stripPassword u)

/-- storage.getAllUsers: every users row ordered by createdAt descending. -/
def getAllUsers (usersDb : List User) : List User :=
  usersDb.insertionSort (fun a b => b.createdAt ≤ a.createdAt)

/-- Responses of the admin user-listing endpoint. -/
inductive AdminUsersResp where
  | unauthorized
  | forbidden
  | ok (l : List PublicUser)
deriving DecidableEq, Repr

/-- The GET admin users endpoint: requireRole for admin, then every stored
user with the password field mapped away. -/
def adminUsersRoute (usersDb : List User) (sessionUserId : Option String) :
    AdminUsersResp :=
  match requireRole [Role.admin] sessionUserId usersDb with
  | AuthCheck.unauthorized => AdminUsersResp.unauthorized
  | AuthCheck.forbidden => AdminUsersResp.forbidden
  | AuthCheck.ok _ => AdminUsersResp.ok ((getAllUsers usersDb).map stripPassword)

/-- Two stored user tables that agree on everything except the password
column of each row. -/
def EqModuloPasswords (db1 db2 : List User) : Prop :=
  db1.map stripPassword = db2.map stripPassword

/-- Every entry of the clients map holds a non-empty connection set. -/
def regNonEmpty (reg : Registry) : Prop := ∀ p ∈ reg, p.2 ≠ []

/-- The keys of the clients map are distinct, as they are for a Map. -/
def regWF (reg : Registry) : Prop := (reg.map Prod.fst).Nodup

/-! Concrete fixtures used by witnesses and counterexamples. -/

/-- Sample admin account. -/
def adminUser : User :=
  { id := "adm1"
    email := "admin@campus.edu"
    password := "hashA"
    role := Role.admin
    department := Department.none
    fullName := Option.none
    phoneNumber := Option.none
    isActive := true
    createdAt := 0
    lastLogin := Option.none }

/-- Sample medical staff account. -/
def staffMedical : User :=
  { adminUser with
    id := "stf1"
    email := "staff@campus.edu"
    role := Role.staff
    department := Department.medical }

/-- Sample student account. -/
def studentUser : User :=
  { adminUser with
    id := "stu1"
    email := "student@campus.edu"
    role := Role.student }

/-- Sample pending medical alert. -/
def pendingAlert : Alert :=
  { id := "a1"
    userId := "stu1"
    department := Department.medical
    status := AlertStatus.pending
    latitude := Option.none
    longitude := Option.none
    locationName := Option.none
    locationAccuracy := Option.none
    situationData := Option.none
    responseNotes := Option.none
    acknowledgedAt := Option.none
    dispatchedAt := Option.none
    resolvedAt := Option.none
    acknowledgedBy := Option.none
    createdAt := 0 }

/-- Sample resolved alert. -/
def resolvedAlert : Alert :=
  { pendingAlert with id := "a2", status := AlertStatus.resolved }

/-- Request body asking for status resolved. -/
def askResolved : UpdateAlertStatus :=
  { status := AlertStatus.resolved, responseNotes := Option.none }

/-- Request body asking for status pending. -/
def askPending : UpdateAlertStatus :=
  { status := AlertStatus.pending, responseNotes := Option.none }

/-- Request body asking for status acknowledged. -/
def askAcknowledged : UpdateAlertStatus :=
  { status := AlertStatus.acknowledged, responseNotes := Option.none }

/-- Sample creation payload carrying an explicit resolved status. -/
def payloadResolved : InsertAlertPayload :=
  { userId := ""
    department := Department.medical
    status := Option.some AlertStatus.resolved
    latitude := Option.none
    longitude := Option.none
    locationName := Option.none
    locationAccuracy := Option.none
    situationData := Option.none
    responseNotes := Option.none }

/-- Sample creation payload without a status field. -/
def payloadNoStatus : InsertAlertPayload :=
  { payloadResolved with status := Option.none }

end CampusSafeGuard

namespace CampusSafeGuard

/-! Claim theorems. -/

/-- Claim C1 (code bug): the PATCH alerts guard skips the transition check
whenever the current status is pending, although the validTransitions
record itself lists only acknowledged and dispatched as reachable from
pending.  At the concrete failing input (existing pending alert, admin
actor, requested status resolved) the endpoint succeeds and stores the
resolved status, while the transition table of the code and of the spec
does not allow pending to resolved. -/
theorem patch_pending_transition_unchecked :
    patchAlertRoute [adminUser] [pendingAlert] (Option.some adminUser.id)
        pendingAlert.id askResolved 5
      = (PatchResp.ok
          { pendingAlert with
            status := AlertStatus.resolved
            resolvedAt := Option.some 5 },
         [{ pendingAlert with
            status := AlertStatus.resolved
            resolvedAt := Option.some 5 }])
    ∧ specAllowsTransition AlertStatus.pending AlertStatus.resolved = false
    ∧ transitionRejected AlertStatus.pending AlertStatus.resolved = false := by
  refine ⟨?_, rfl, rfl⟩
  decide

/-- Claim C2 (code bug): resolved is not terminal in the code.  The
validTransitions record has no entry for resolved, and the truthiness
guard therefore skips the check entirely, so the PATCH endpoint moves a
resolved alert back to pending at the concrete failing input, while the
spec states that no transition reopens a resolved alert. -/
theorem patch_resolved_not_terminal :
    patchAlertRoute [adminUser] [resolvedAlert] (Option.some adminUser.id)
        resolvedAlert.id askPending 7
      = (PatchResp.ok { resolvedAlert with status := AlertStatus.pending },
         [{ resolvedAlert with status := AlertStatus.pending }])
    ∧ specAllowsTransition AlertStatus.resolved AlertStatus.pending = false
    ∧ validTransitions AlertStatus.resolved = Option.none := by
  refine ⟨?_, rfl, rfl⟩
  decide

/-- Claim C4 counterexample: a payload accepted by insertAlertSchema may
carry an explicit status, and the created alert then has that status, not
pending. -/
theorem postAlert_status_not_always_pending :
    (postAlertRoute studentUser.id payloadResolved pendingAlert.id 3).status
      = AlertStatus.resolved
    ∧ AlertStatus.resolved ≠ AlertStatus.pending := by
  decide

/-- Claim C4 (amended): the created alert has status pending exactly when
the accepted payload does not supply a status (the column default); a
payload supplying a status yields an alert with that status. -/
theorem postAlert_status_default_pending (sessionUid : String)
    (payload : InsertAlertPayload) (newId : String) (now : Nat) :
    (payload.status = Option.none →
      (postAlertRoute sessionUid payload newId now).status = AlertStatus.pending)
    ∧ ∀ s, payload.status = Option.some s →
      (postAlertRoute sessionUid payload newId now).status = s := by
  constructor
  · intro h
    simp [postAlertRoute, createAlertRow, h]
  · intro s h
    simp [postAlertRoute, createAlertRow, h]

/-- Witness for C4: at a concrete payload without a status the created
alert is pending. -/
theorem postAlert_status_default_pending_witness :
    (postAlertRoute studentUser.id payloadNoStatus pendingAlert.id 3).status
      = AlertStatus.pending :=
  (postAlert_status_default_pending studentUser.id payloadNoStatus
    pendingAlert.id 3).1 rfl

/-- Claim C5: the created alert belongs to the session user whatever
userId the payload carries. -/
theorem postAlert_userId_overridden (sessionUid : String)
    (payload : InsertAlertPayload) (newId : String) (now : Nat) :
    (postAlertRoute sessionUid payload newId now).userId = sessionUid := rfl

/-- Claim C6: an admin asking to delete their own account gets 400 and the
stored state (users and audit logs) is returned unchanged. -/
theorem admin_self_delete_rejected (st : AdminState) (uid logId : String)
    (now : Nat) (u : User) (hu : findUser st.users uid = Option.some u)
    (hrole : u.role = Role.admin) :
    deleteUserRoute st (Option.some uid) uid logId now = (DeleteResp.badRequest, st) := by
  simp [deleteUserRoute, requireRole, hu, hrole, deleteUserHandler]

/-- Claim C3: on the department alert listing and on the alert status
update, a staff actor outside the relevant department gets Forbidden, an
admin is exempt from the department match, and a student is rejected by
the role gate of both endpoints. -/
theorem department_scope_enforced (usersDb : List User) (alertsDb : List Alert)
    (uid : String) (u : User) (dept : Department) (aid : String)
    (data : UpdateAlertStatus) (now : Nat)
    (hu : findUser usersDb uid = Option.some u) :
    (u.role = Role.staff → u.department ≠ dept →
      getDeptAlertsRoute usersDb alertsDb (Option.some uid) dept
        = DeptAlertsResp.forbidden)
    ∧ (∀ alert, u.role = Role.staff →
        findAlert alertsDb aid = Option.some alert →
        u.department ≠ alert.department →
        patchAlertRoute usersDb alertsDb (Option.some uid) aid data now
          = (PatchResp.forbidden, alertsDb))
    ∧ (u.role = Role.admin →
        getDeptAlertsRoute usersDb alertsDb (Option.some uid) dept
          = DeptAlertsResp.ok (getAlertsByDepartment alertsDb dept))
    ∧ (u.role = Role.admin → ∀ alert,
        findAlert alertsDb aid = Option.some alert →
        (patchAlertRoute usersDb alertsDb (Option.some uid) aid data now).1
          ≠ PatchResp.forbidden)
    ∧ (u.role = Role.student →
        getDeptAlertsRoute usersDb alertsDb (Option.some uid) dept
          = DeptAlertsResp.forbidden
        ∧ patchAlertRoute usersDb alertsDb (Option.some uid) aid data now
            = (PatchResp.forbidden, alertsDb)) := by
  refine ⟨?_, ?_, ?_, ?_, ?_⟩
  · intro hrole hne
    simp [getDeptAlertsRoute, requireRole, hu, hrole, hne]
  · intro alert hrole hfind hne
    simp [patchAlertRoute, requireRole, hu, hrole, patchAlertHandler, hfind, hne]
  · intro hrole
    simp [getDeptAlertsRoute, requireRole, hu, hrole]
  · intro hrole alert hfind
    simp [patchAlertRoute, requireRole, hu, hrole, patchAlertHandler, hfind]
    split <;> simp
  · intro hrole
    constructor
    · simp [getDeptAlertsRoute, requireRole, hu, hrole]
    · simp [patchAlertRoute, requireRole, hu, hrole]

/-- Witness for C3: the concrete medical staff member asking for the
security department listing is refused. -/
theorem department_scope_enforced_witness :
    getDeptAlertsRoute [staffMedical] [pendingAlert]
        (Option.some staffMedical.id) Department.security
      = DeptAlertsResp.forbidden :=
  (department_scope_enforced [staffMedical] [pendingAlert] staffMedical.id
      staffMedical Department.security pendingAlert.id askResolved 5
      (by decide)).1 rfl (by decide)

/-- The relevant projections of the updateData application: the status is
the requested one and the stamp matching the new status is set. -/
theorem applyStatusUpdate_proj (a : Alert) (data : UpdateAlertStatus)
    (actorId : String) (now : Nat) :
    (applyStatusUpdate a data actorId now).status = data.status
    ∧ (data.status = AlertStatus.acknowledged →
        (applyStatusUpdate a data actorId now).acknowledgedAt = Option.some now
        ∧ (applyStatusUpdate a data actorId now).acknowledgedBy
            = Option.some actorId)
    ∧ (data.status = AlertStatus.dispatched →
        (applyStatusUpdate a data actorId now).dispatchedAt = Option.some now)
    ∧ (data.status = AlertStatus.resolved →
        (applyStatusUpdate a data actorId now).resolvedAt = Option.some now) := by
  obtain ⟨st, notes⟩ := data
  cases st <;> cases notes <;> simp [applyStatusUpdate, apply_ite]

/-- Claim C7: from a pending alert, an authorized actor (admin, or staff
of the alert department) always reaches a successful update, and the
updated row stamps acknowledgedAt and acknowledgedBy on acknowledgement,
dispatchedAt on dispatch, and resolvedAt on resolution. -/
theorem patch_success_stamps (alertsDb : List Alert) (user : User)
    (aid : String) (data : UpdateAlertStatus) (now : Nat) (alert : Alert)
    (hfind : findAlert alertsDb aid = Option.some alert)
    (hpend : alert.status = AlertStatus.pending)
    (hauth : user.role = Role.admin ∨
      (user.role = Role.staff ∧ user.department = alert.department)) :
    ∃ a2, (patchAlertHandler alertsDb user aid data now).1 = PatchResp.ok a2
      ∧ a2.status = data.status
      ∧ (data.status = AlertStatus.acknowledged →
          a2.acknowledgedAt = Option.some now
          ∧ a2.acknowledgedBy = Option.some user.id)
      ∧ (data.status = AlertStatus.dispatched →
          a2.dispatchedAt = Option.some now)
      ∧ (data.status = AlertStatus.resolved →
          a2.resolvedAt = Option.some now) := by
  have hforb : ¬ (user.role = Role.staff ∧ user.department ≠ alert.department) := by
    rintro ⟨hs, hne⟩
    rcases hauth with hadm | ⟨-, hdep⟩
    · rw [hadm] at hs
      exact Role.noConfusion hs
    · exact hne hdep
  have hrej : transitionRejected alert.status data.status = false := by
    simp [transitionRejected, hpend]
  obtain ⟨h1, h2, h3, h4⟩ := applyStatusUpdate_proj alert data user.id now
  refine ⟨applyStatusUpdate alert data user.id now, ?_, h1, h2, h3, h4⟩
  simp [patchAlertHandler, hfind, hforb, hrej]

/-- Witness for C7: the concrete medical staff member acknowledging the
concrete pending medical alert succeeds and stamps actor and time. -/
theorem patch_success_stamps_witness :
    ∃ a2, (patchAlertHandler [pendingAlert] staffMedical pendingAlert.id
        askAcknowledged 5).1 = PatchResp.ok a2
      ∧ a2.status = askAcknowledged.status
      ∧ (askAcknowledged.status = AlertStatus.acknowledged →
          a2.acknowledgedAt = Option.some 5
          ∧ a2.acknowledgedBy = Option.some staffMedical.id)
      ∧ (askAcknowledged.status = AlertStatus.dispatched →
          a2.dispatchedAt = Option.some 5)
      ∧ (askAcknowledged.status = AlertStatus.resolved →
          a2.resolvedAt = Option.some 5) :=
  patch_success_stamps [pendingAlert] staffMedical pendingAlert.id
    askAcknowledged 5 pendingAlert (by decide) rfl (Or.inr ⟨rfl, rfl⟩)

instance : IsTotal Message (fun a b => a.createdAt ≤ b.createdAt) :=
  ⟨fun a b => Nat.le_total a.createdAt b.createdAt⟩

instance : IsTrans Message (fun a b => a.createdAt ≤ b.createdAt) :=
  ⟨fun _ _ _ h1 h2 => Nat.le_trans h1 h2⟩

/-- Claim C8: for a reader the access check admits, the message listing
responds with exactly the messages of the session (a permutation of the
filtered table) in non-decreasing creation-time order. -/
theorem messages_sorted_ascending (usersDb : List User)
    (sessionsDb : List ChatSession) (msgsDb : List Message) (uid sid : String)
    (sess : ChatSession) (u : User)
    (hs : findChatSession sessionsDb sid = Option.some sess)
    (hu : findUser usersDb uid = Option.some u)
    (hacc : canAccessSession sess uid u = true) :
    ∃ l, getMessagesRoute usersDb sessionsDb msgsDb (Option.some uid) sid
        = MessagesResp.ok l
      ∧ l.Perm (msgsDb.filter (fun m => m.sessionId = sid))
      ∧ l.Sorted (fun a b => a.createdAt ≤ b.createdAt) := by
  refine ⟨getMessagesBySession msgsDb sid, ?_, ?_, ?_⟩
  · simp [getMessagesRoute, hs, hu, hacc]
  · exact List.perm_insertionSort _ _
  · exact List.sorted_insertionSort _ _

/-- Sample chat fixtures for the C8 witness. -/
def sampleSession : ChatSession :=
  { id := "cs1"
    userId := "stu1"
    department := Department.guidance
    anonymousId := "User#AB12CD"
    status := ChatStatus.active
    lastMessageAt := Option.none
    createdAt := 0
    closedAt := Option.none }

/-- Two messages of the sample session, stored newest first. -/
def sampleMessages : List Message :=
  [{ id := "m2"
     sessionId := "cs1"
     senderId := "stu1"
     senderRole := SenderRole.student
     content := "second"
     fileUrl := Option.none
     fileName := Option.none
     isRead := false
     createdAt := 9 },
   { id := "m1"
     sessionId := "cs1"
     senderId := "stu1"
     senderRole := SenderRole.student
     content := "first"
     fileUrl := Option.none
     fileName := Option.none
     isRead := false
     createdAt := 4 }]

/-- Witness for C8: the owning student reads the sample session. -/
theorem messages_sorted_ascending_witness :
    ∃ l, getMessagesRoute [studentUser] [sampleSession] sampleMessages
        (Option.some studentUser.id) sampleSession.id = MessagesResp.ok l
      ∧ l.Perm (sampleMessages.filter (fun m => m.sessionId = sampleSession.id))
      ∧ l.Sorted (fun a b => a.createdAt ≤ b.createdAt) :=
  messages_sorted_ascending [studentUser] [sampleSession] sampleMessages
    studentUser.id sampleSession.id sampleSession studentUser
    (by decide) (by decide) (by decide)

/-- Looking a key up after setting it yields the stored value. -/
theorem regGet_regSet (reg : Registry) (uid : String) (l : List Conn) :
    regGet (regSet reg uid l) uid = Option.some l := by
  induction reg with
  | nil => simp [regSet, regGet]
  | cons p rest ih =>
    obtain ⟨k, v⟩ := p
    by_cases hk : k = uid
    · simp [regSet, regGet, hk]
    · simp [regSet, regGet, hk, ih]

/-- A key absent from the key list has no stored value. -/
theorem regGet_none_of_not_mem (reg : Registry) (uid : String)
    (h : uid ∉ reg.map Prod.fst) : regGet reg uid = Option.none := by
  induction reg with
  | nil => rfl
  | cons p rest ih =>
    obtain ⟨k, v⟩ := p
    simp only [List.map_cons, List.mem_cons] at h
    push_neg at h
    obtain ⟨h1, h2⟩ := h
    have hk : k ≠ uid := fun hh => h1 hh.symm
    simp [regGet, hk, ih h2]

/-- With distinct keys, deleting a key removes its value. -/
theorem regGet_regDelete (reg : Registry) (uid : String) (hwf : regWF reg) :
    regGet (regDelete reg uid) uid = Option.none := by
  induction reg with
  | nil => rfl
  | cons p rest ih =>
    obtain ⟨k, v⟩ := p
    simp only [regWF, List.map_cons, List.nodup_cons] at hwf
    obtain ⟨hk, hrest⟩ := hwf
    by_cases hku : k = uid
    · subst hku
      simpa [regDelete] using regGet_none_of_not_mem rest k hk
    · simp only [regDelete, if_neg hku, regGet]
      exact ih hrest

/-- Setting a non-empty value keeps every stored value non-empty. -/
theorem regNonEmpty_regSet (reg : Registry) (uid : String) (l : List Conn)
    (h : regNonEmpty reg) (hl : l ≠ []) : regNonEmpty (regSet reg uid l) := by
  induction reg with
  | nil =>
    intro p hp
    simp only [regSet, List.mem_singleton] at hp
    subst hp
    exact hl
  | cons q rest ih =>
    obtain ⟨k, v⟩ := q
    by_cases hk : k = uid
    · intro p hp
      simp only [regSet, if_pos hk, List.mem_cons] at hp
      rcases hp with hp | hp
      · subst hp; exact hl
      · exact h p (List.mem_cons_of_mem _ hp)
    · intro p hp
      simp only [regSet, if_neg hk, List.mem_cons] at hp
      rcases hp with hp | hp
      · subst hp
        exact h _ (List.mem_cons_self _ _)
      · exact ih (fun q hq => h q (List.mem_cons_of_mem _ hq)) p hp

/-- Deleting a key keeps every stored value non-empty. -/
theorem regNonEmpty_regDelete (reg : Registry) (uid : String)
    (h : regNonEmpty reg) : regNonEmpty (regDelete reg uid) := by
  induction reg with
  | nil =>
    intro p hp
    simp [regDelete] at hp
  | cons q rest ih =>
    obtain ⟨k, v⟩ := q
    by_cases hk : k = uid
    · intro p hp
      simp only [regDelete, if_pos hk] at hp
      exact h p (List.mem_cons_of_mem _ hp)
    · intro p hp
      simp only [regDelete, if_neg hk, List.mem_cons] at hp
      rcases hp with hp | hp
      · subst hp
        exact h _ (List.mem_cons_self _ _)
      · exact ih (fun q hq => h q (List.mem_cons_of_mem _ hq)) p hp

/-- A stored value sits in the map under its key. -/
theorem regGet_mem (reg : Registry) (uid : String) (l : List Conn)
    (h : regGet reg uid = Option.some l) : (uid, l) ∈ reg := by
  induction reg with
  | nil => exact Option.noConfusion h
  | cons p rest ih =>
    obtain ⟨k, v⟩ := p
    by_cases hk : k = uid
    · subst hk
      have h2 : v = l := by simpa [regGet] using h
      subst h2
      exact List.mem_cons_self _ _
    · simp only [regGet, if_neg hk] at h
      exact List.mem_cons_of_mem _ (ih h)

/-- Claim C9: the connection registry keeps every registered user mapped
to a non-empty connection set (registration and unregistration both
preserve this); closing the last connection of a user removes the user
entry, a push to an unregistered user performs no sends, and a push to a
user with two registered open connections sends on both. -/
theorem connection_registry_invariants (reg : Registry) (uid : String)
    (c c1 c2 : Conn) (msg : String) :
    (regNonEmpty reg →
      regNonEmpty (registerConn reg uid c)
      ∧ regNonEmpty (unregisterConn reg uid c))
    ∧ (∀ l, regWF reg → regGet reg uid = Option.some l →
        l.filter (fun x => x ≠ c) = [] →
        regGet (unregisterConn reg uid c) uid = Option.none)
    ∧ (regGet reg uid = Option.none → broadcastToUser reg uid msg = [])
    ∧ (regGet reg uid = Option.none → c1 ≠ c2 →
        regGet (registerConn (registerConn reg uid c1) uid c2) uid
          = Option.some [c1, c2]
        ∧ (c1.readyState = ReadyState.OPEN → c2.readyState = ReadyState.OPEN →
            broadcastToUser (registerConn (registerConn reg uid c1) uid c2)
                uid msg
              = [(c1.connId, msg), (c2.connId, msg)])) := by
  refine ⟨?_, ?_, ?_, ?_⟩
  · intro h
    constructor
    · unfold registerConn
      cases hget : regGet reg uid with
      | none => exact regNonEmpty_regSet reg uid [c] h (by simp)
      | some l =>
        have hl : l ≠ [] := h (uid, l) (regGet_mem reg uid l hget)
        refine regNonEmpty_regSet reg uid _ h ?_
        split
        · exact hl
        · simp
    · unfold unregisterConn
      cases hget : regGet reg uid with
      | none => exact h
      | some l =>
        by_cases hemp : (l.filter (fun x => x ≠ c)).isEmpty
        · simp only [hemp, if_pos]
          exact regNonEmpty_regDelete reg uid h
        · simp only [hemp, if_neg, Bool.false_eq_true, not_false_iff]
          refine regNonEmpty_regSet reg uid _ h ?_
          intro hnil
          rw [hnil] at hemp
          exact hemp rfl
  · intro l hwf hget hfilter
    simp only [unregisterConn, hget, hfilter, List.isEmpty_nil, if_pos]
    exact regGet_regDelete reg uid hwf
  · intro hget
    simp [broadcastToUser, hget]
  · intro hget hne
    have h1 : registerConn reg uid c1 = regSet reg uid [c1] := by
      simp [registerConn, hget]
    have h2 : regGet (regSet reg uid [c1]) uid = Option.some [c1] :=
      regGet_regSet reg uid [c1]
    have hne2 : c2 ≠ c1 := Ne.symm hne
    have h3 : registerConn (regSet reg uid [c1]) uid c2
        = regSet (regSet reg uid [c1]) uid [c1, c2] := by
      simp [registerConn, h2, hne2]
    rw [h1, h3]
    refine ⟨regGet_regSet _ uid _, ?_⟩
    intro ho1 ho2
    simp [broadcastToUser, regGet_regSet, ho1, ho2]

/-- Witness for C9: pushing after registering two open connections of one
user on the empty registry sends on both connections. -/
theorem connection_registry_invariants_witness :
    regGet (registerConn (registerConn ([] : Registry) sampleSession.userId
        { connId := 1, readyState := ReadyState.OPEN })
        sampleSession.userId { connId := 2, readyState := ReadyState.OPEN })
        sampleSession.userId
      = Option.some [{ connId := 1, readyState := ReadyState.OPEN },
                     { connId := 2, readyState := ReadyState.OPEN }]
    ∧ (({ connId := 1, readyState := ReadyState.OPEN } : Conn).readyState
          = ReadyState.OPEN →
        ({ connId := 2, readyState := ReadyState.OPEN } : Conn).readyState
          = ReadyState.OPEN →
        broadcastToUser (registerConn (registerConn ([] : Registry)
            sampleSession.userId { connId := 1, readyState := ReadyState.OPEN })
            sampleSession.userId { connId := 2, readyState := ReadyState.OPEN })
            sampleSession.userId sampleSession.anonymousId
          = [(1, sampleSession.anonymousId), (2, sampleSession.anonymousId)]) :=
  (connection_registry_invariants [] sampleSession.userId
      { connId := 1, readyState := ReadyState.OPEN }
      { connId := 1, readyState := ReadyState.OPEN }
      { connId := 2, readyState := ReadyState.OPEN }
      sampleSession.anonymousId).2.2.2 rfl (by decide)

/-- Witness for C6: the concrete admin deleting their own id. -/
theorem admin_self_delete_rejected_witness :
    deleteUserRoute { users := [adminUser], auditLogs := [] }
        (Option.some adminUser.id) adminUser.id pendingAlert.id 9
      = (DeleteResp.badRequest, { users := [adminUser], auditLogs := [] }) :=
  admin_self_delete_rejected { users := [adminUser], auditLogs := [] }
    adminUser.id pendingAlert.id 9 adminUser (by decide) rfl

/-- Lookup by id agrees, up to the password column, on two user tables
that agree up to the password column. -/
theorem findUser_congr (db1 db2 : List User)
    (h : db1.map stripPassword = db2.map stripPassword) (uid : String) :
    Option.map stripPassword (findUser db1 uid)
      = Option.map stripPassword (findUser db2 uid) := by
  induction db1 generalizing db2 with
  | nil =>
    cases db2 with
    | nil => rfl
    | cons b l2 => exact absurd h (by simp)
  | cons a l1 ih =>
    cases db2 with
    | nil => exact absurd h (by simp)
    | cons b l2 =>
      simp only [List.map_cons, List.cons.injEq] at h
      obtain ⟨h1, h2⟩ := h
      have hid : a.id = b.id := congrArg PublicUser.id h1
      simp only [findUser]
      by_cases hc : a.id = uid
      · have hcb : b.id = uid := by rw [← hid]; exact hc
        rw [if_pos hc, if_pos hcb]
        simp [h1]
      · have hcb : ¬ b.id = uid := by rw [← hid]; exact hc
        rw [if_neg hc, if_neg hcb]
        exact ih l2 h2

/-- Lookup by email agrees, up to the password column, on two user tables
that agree up to the password column. -/
theorem findUserByEmail_congr (db1 db2 : List User)
    (h : db1.map stripPassword = db2.map stripPassword) (email : String) :
    Option.map stripPassword (findUserByEmail db1 email)
      = Option.map stripPassword (findUserByEmail db2 email) := by
  induction db1 generalizing db2 with
  | nil =>
    cases db2 with
    | nil => rfl
    | cons b l2 => exact absurd h (by simp)
  | cons a l1 ih =>
    cases db2 with
    | nil => exact absurd h (by simp)
    | cons b l2 =>
      simp only [List.map_cons, List.cons.injEq] at h
      obtain ⟨h1, h2⟩ := h
      have hem : a.email = b.email := congrArg PublicUser.email h1
      simp only [findUserByEmail]
      by_cases hc : a.email = email
      · have hcb : b.email = email := by rw [← hem]; exact hc
        rw [if_pos hc, if_pos hcb]
        simp [h1]
      · have hcb : ¬ b.email = email := by rw [← hem]; exact hc
        rw [if_neg hc, if_neg hcb]
        exact ih l2 h2

/-- Ordered insertion for the newest-first listing commutes with dropping
the password column. -/
theorem map_strip_orderedInsert (a b : User) :
    ∀ (l1 l2 : List User), stripPassword a = stripPassword b →
    l1.map stripPassword = l2.map stripPassword →
    (List.orderedInsert (fun x y => y.createdAt ≤ x.createdAt) a l1).map
        stripPassword
      = (List.orderedInsert (fun x y => y.createdAt ≤ x.createdAt) b l2).map
        stripPassword
  | [], [], hab, _ => by simp [hab]
  | [], y :: l2, _, h => absurd h (by simp)
  | x :: l1, [], _, h => absurd h (by simp)
  | x :: l1, y :: l2, hab, h => by
    simp only [List.map_cons, List.cons.injEq] at h
    obtain ⟨hxy, h2⟩ := h
    have hca : a.createdAt = b.createdAt := congrArg PublicUser.createdAt hab
    have hcx : x.createdAt = y.createdAt := congrArg PublicUser.createdAt hxy
    simp only [List.orderedInsert]
    by_cases hr : x.createdAt ≤ a.createdAt
    · have hrb : y.createdAt ≤ b.createdAt := by rw [← hca, ← hcx]; exact hr
      rw [if_pos hr, if_pos hrb]
      simp [hab, hxy, h2]
    · have hrb : ¬ y.createdAt ≤ b.createdAt := by rw [← hca, ← hcx]; exact hr
      rw [if_neg hr, if_neg hrb]
      simp only [List.map_cons, List.cons.injEq]
      exact ⟨hxy, map_strip_orderedInsert a b l1 l2 hab h2⟩

/-- The newest-first sort of the user listing commutes with dropping the
password column. -/
theorem map_strip_insertionSort :
    ∀ (l1 l2 : List User), l1.map stripPassword = l2.map stripPassword →
    (List.insertionSort (fun x y => y.createdAt ≤ x.createdAt) l1).map
        stripPassword
      = (List.insertionSort (fun x y => y.createdAt ≤ x.createdAt) l2).map
        stripPassword
  | [], [], _ => rfl
  | [], y :: l2, h => absurd h (by simp)
  | x :: l1, [], h => absurd h (by simp)
  | x :: l1, y :: l2, h => by
    simp only [List.map_cons, List.cons.injEq] at h
    obtain ⟨hxy, h2⟩ := h
    simp only [List.insertionSort]
    exact map_strip_orderedInsert x y _ _ hxy
      (map_strip_insertionSort l1 l2 h2)

/-- Claim C10: no response of login, registration, the current-user
endpoint or the admin user listing depends on the stored password hashes.
On two stored user tables that agree except for the password column, the
current-user and admin-listing responses are identical, the registration
response is identical whatever hash function each run uses, and two
successful login responses carry the same user payload. -/
theorem responses_strip_password (db1 db2 : List User)
    (h : EqModuloPasswords db1 db2) :
    (∀ sid, meRoute db1 sid = meRoute db2 sid)
    ∧ (∀ sid, adminUsersRoute db1 sid = adminUsersRoute db2 sid)
    ∧ (∀ data hash1 hash2 newId now,
        registerRoute db1 data hash1 newId now
          = registerRoute db2 data hash2 newId now)
    ∧ (∀ email pw chk1 chk2 u1 u2,
        loginRoute db1 email pw chk1 = LoginResp.ok u1 →
        loginRoute db2 email pw chk2 = LoginResp.ok u2 → u1 = u2) := by
  refine ⟨?_, ?_, ?_, ?_⟩
  · intro sid
    cases sid with
    | none => rfl
    | some uid =>
      have hfc := findUser_congr db1 db2 h uid
      simp only [meRoute]
      cases hf1 : findUser db1 uid with
      | none =>
        cases hf2 : findUser db2 uid with
        | none => rfl
        | some u2 => rw [hf1, hf2] at hfc; exact absurd hfc (by simp)
      | some u1 =>
        cases hf2 : findUser db2 uid with
        | none => rw [hf1, hf2] at hfc; exact absurd hfc (by simp)
        | some u2 =>
          rw [hf1, hf2] at hfc
          simp only [Option.map_some', Option.some.injEq] at hfc
          simp [hfc]
  · intro sid
    cases sid with
    | none => rfl
    | some uid =>
      have hfc := findUser_congr db1 db2 h uid
      have hsort := map_strip_insertionSort db1 db2 h
      simp only [adminUsersRoute, requireRole, getAllUsers]
      cases hf1 : findUser db1 uid with
      | none =>
        cases hf2 : findUser db2 uid with
        | none => rfl
        | some u2 => rw [hf1, hf2] at hfc; exact absurd hfc (by simp)
      | some u1 =>
        cases hf2 : findUser db2 uid with
        | none => rw [hf1, hf2] at hfc; exact absurd hfc (by simp)
        | some u2 =>
          rw [hf1, hf2] at hfc
          simp only [Option.map_some', Option.some.injEq] at hfc
          have hrole : u1.role = u2.role := congrArg PublicUser.role hfc
          by_cases hm : u2.role = Role.admin
          · have hm1 : u1.role = Role.admin := by rw [hrole]; exact hm
            simp [hm, hm1, hsort]
          · have hm1 : ¬ u1.role = Role.admin := by rw [hrole]; exact hm
            simp [hm, hm1]
  · intro data hash1 hash2 newId now
    have hfc := findUserByEmail_congr db1 db2 h data.email
    simp only [registerRoute]
    cases hf1 : findUserByEmail db1 data.email with
    | none =>
      cases hf2 : findUserByEmail db2 data.email with
      | none => simp [stripPassword]
      | some u2 => rw [hf1, hf2] at hfc; exact absurd hfc (by simp)
    | some u1 =>
      cases hf2 : findUserByEmail db2 data.email with
      | none => rw [hf1, hf2] at hfc; exact absurd hfc (by simp)
      | some u2 => rfl
  · intro email pw chk1 chk2 u1 u2 hok1 hok2
    have hfc := findUserByEmail_congr db1 db2 h email
    cases hf1 : findUserByEmail db1 email with
    | none =>
      rw [loginRoute, hf1] at hok1
      exact absurd hok1 (by simp)
    | some v1 =>
      cases hf2 : findUserByEmail db2 email with
      | none =>
        rw [hf1, hf2] at hfc
        exact absurd hfc (by simp)
      | some v2 =>
        rw [hf1, hf2] at hfc
        simp only [Option.map_some', Option.some.injEq] at hfc
        rw [loginRoute, hf1] at hok1
        rw [loginRoute, hf2] at hok2
        have e1 : stripPassword v1 = u1 := by
          cases hb : chk1 pw v1.password <;> cases ha : v1.isActive <;>
            simp [hb, ha] at hok1
          exact hok1
        have e2 : stripPassword v2 = u2 := by
          cases hb : chk2 pw v2.password <;> cases ha : v2.isActive <;>
            simp [hb, ha] at hok2
          exact hok2
        rw [← e1, ← e2, hfc]

/-- Two one-row user tables differing only in the stored hash. -/
def dbHashX : List User := [adminUser]

/-- The same table with another stored hash. -/
def dbHashY : List User := [{ adminUser with password := "hashB" }]

/-- Witness for C10: the current-user responses over the two tables agree
at a concrete session. -/
theorem responses_strip_password_witness :
    meRoute dbHashX (Option.some adminUser.id)
      = meRoute dbHashY (Option.some adminUser.id) :=
  (responses_strip_password dbHashX dbHashY rfl).1
    (Option.some adminUser.id)

end CampusSafeGuard
